import Mathlib

/-!
Verification of the prefab command endpoint of the repository
(Server/src/services/tools/manage_prefabs.py): parameter building, instance
resolution, dispatch and response normalization.

Python values are modelled by the inductive type Val; dictionaries are
association lists whose keys are distinct in every value the endpoint builds;
raised exceptions are modelled with Except.  Helpers that the endpoint imports
but whose source is not part of the visible tree (coerce_bool, coerce_int,
get_unity_instance_from_context, send_with_unity_instance and the retrying
dispatcher behind it) are modelled from the specification; each such
definition says so in its doc comment.
-/

namespace ManagePrefabs

/-- Python runtime values, as far as this endpoint handles them. -/
inductive Val where
  | vnone
  | vbool (b : Bool)
  | vint (n : Int)
  | vfloat (q : ℚ)
  | vstr (s : String)
  | vlist (xs : List Val)
  | vdict (entries : List (String × Val))
  deriving Repr

/-- Python truthiness of a value (None, False, 0, empty string and empty
containers are falsy). -/
def truthy : Val → Bool
  | .vnone => false
  | .vbool b => b
  | .vint n => n != 0
  | .vfloat q => q.num != 0
  | .vstr s => s != ""
  | .vlist xs => !xs.isEmpty
  | .vdict es => !es.isEmpty

/-- isinstance(response, dict). -/
def Val.isDict : Val → Bool
  | .vdict _ => true
  | _ => false

/-- The entry list of a dictionary value (empty for non-dictionaries). -/
def Val.entries : Val → List (String × Val)
  | .vdict es => es
  | _ => []

/-- The key list of a dictionary value. -/
def Val.keys (v : Val) : List String := v.entries.map Prod.fst

/-- Python dict.get(k): the value stored at the key, None when absent. -/
def Val.getVal (v : Val) (k : String) : Val :=
  match v.entries.lookup k with
  | some x => x
  | none => .vnone

/-- Python dict.get(k, d): the value stored at the key, d when absent. -/
def Val.getD (v : Val) (k : String) (d : Val) : Val :=
  match v.entries.lookup k with
  | some x => x
  | none => d

/-- Python str() of a value: the string itself for strings, the repr-style
rendering otherwise. -/
def pyRepr : Val → String
  | .vnone => "None"
  | .vbool true => "True"
  | .vbool false => "False"
  | .vint n => toString n
  | .vfloat q => toString q
  | .vstr s => "\x27" ++ s ++ "\x27"
  | .vlist xs => "[" ++ String.intercalate ", " (xs.attach.map fun x => pyRepr x.1) ++ "]"
  | .vdict es =>
      "\x7b" ++
        String.intercalate ", "
          (es.attach.map fun e => "\x27" ++ e.1.1 ++ "\x27: " ++ pyRepr e.1.2) ++
      "\x7d"
decreasing_by
  · have := List.sizeOf_lt_of_mem x.2
    simp at this ⊢
    omega
  · obtain ⟨⟨k, v⟩, hm⟩ := e
    have := List.sizeOf_lt_of_mem hm
    simp at this ⊢
    omega

/-- Python str() applied to a value. -/
def pyStr : Val → String
  | .vstr s => s
  | v => pyRepr v

/-- Case-insensitive substring test, on character lists. -/
def containsSub (needle : List Char) : List Char → Bool
  | [] => needle.isEmpty
  | c :: rest => needle.isPrefixOf (c :: rest) || containsSub needle rest

/-- The characters of a string, lowercased. -/
def lowerChars (s : String) : List Char := s.data.map Char.toLower

/-- Whether pat occurs in hay, ignoring case. -/
def containsCI (hay pat : String) : Bool :=
  containsSub (lowerChars pat) (lowerChars hay)

/-- A string lowercased character by character. -/
def strLower (s : String) : String := ⟨s.data.map Char.toLower⟩

/-- Modelled from the spec: coerce_bool (services/tools/utils.py, not under
src/).  Boolean coercion accepts a native boolean or one of the
case-insensitive string forms true/false/1/0/yes/no; any other input —
including an absent argument — yields no value.  It never raises. -/
def coerce_bool : Val → Option Bool
  | .vbool b => some b
  | .vstr s =>
      let t := strLower s
      if t = "true" ∨ t = "1" ∨ t = "yes" then some true
      else if t = "false" ∨ t = "0" ∨ t = "no" then some false
      else none
  | _ => none

/-- The value of a list of decimal digit characters, or nothing when the list
is empty or holds a non-digit. -/
def decNat? (cs : List Char) : Option Nat :=
  if cs.isEmpty then none
  else
    cs.foldl
      (fun acc c =>
        match acc with
        | none => none
        | some n => if c.isDigit then some (n * 10 + (c.toNat - 48)) else none)
      (some 0)

/-- An optionally negated decimal numeral, or nothing for any other string. -/
def strToInt? (s : String) : Option Int :=
  match s.data with
  | '-' :: rest => (decNat? rest).map fun n => -(n : Int)
  | cs => (decNat? cs).map fun n => (n : Int)

/-- Modelled from the spec: coerce_int (services/tools/utils.py, not under
src/).  Integer coercion accepts a native integer, a float with integral
value, or a numeric string; non-numeric input yields no value; the supplied
default is returned when the input is absent.  It never raises. -/
def coerce_int (v : Val) (default : Option Int) : Option Int :=
  match v with
  | .vnone => default
  | .vint n => some n
  | .vfloat q => if q.den = 1 then some q.num else none
  | .vstr s => strToInt? s
  | _ => none

/-- One connected remote editor process (an opaque handle). -/
structure UnityInstance where
  id : Nat
  deriving Repr, DecidableEq

/-- A raised Python exception, carrying its str() rendering. -/
structure PyErr where
  msg : String
  deriving Repr, DecidableEq

/-- The caller-scoped session context, carrying the registry binding the
instance resolver would look up for it. -/
structure Context where
  boundInstance : Option UnityInstance
  deriving Repr

/-- The retrying dispatcher behind send_with_unity_instance
(async_send_command_with_retry, not under src/): given an instance, a command
name and its params it either delivers a raw reply or raises; the second
component counts the network sends it performed.  It is kept abstract — the
theorems quantify over it. -/
def SendFn : Type :=
  UnityInstance → String → List (String × Val) → Except PyErr Val × Nat

/-- Modelled from the spec: get_unity_instance_from_context
(services/tools/__init__.py, not under src/) is purely a registry lookup keyed
by context identity — no network I/O and no exception; it yields the bound
instance, or nothing when the caller never connected or the connection was
torn down. -/
def get_unity_instance_from_context (ctx : Context) : Option UnityInstance :=
  ctx.boundInstance

/-- Modelled from the spec: the NoActiveInstance diagnostic text.  The spec
fixes only that it is a NoActiveInstance-class message containing the phrase
"no active instance" case-insensitively. -/
def noActiveInstanceMessage : String :=
  "No active instance is bound for this session"

/-- Modelled from the spec: send_with_unity_instance
(transport/unity_transport.py, not under src/).  With no bound instance it
fails with a NoActiveInstance error and performs zero network sends; with a
bound instance it delegates to the retrying dispatcher.  The second component
of the result counts network sends. -/
def send_with_unity_instance (send : SendFn) (unity_instance : Option UnityInstance)
    (cmd : String) (ps : List (String × Val)) : Except PyErr Val × Nat :=
  match unity_instance with
  | none => (.error ⟨noActiveInstanceMessage⟩, 0)
  | some inst => send inst cmd ps

/-- The arguments of manage_prefabs after the action: each optional parameter
defaults to None (vnone).  The action is an arbitrary string — the Literal
annotation in the source is documentation for the tool schema, not enforced
by the function body. -/
structure Args where
  action : String
  prefab_path : Val := .vnone
  mode : Val := .vnone
  save_before_close : Val := .vnone
  target : Val := .vnone
  allow_overwrite : Val := .vnone
  search_inactive : Val := .vnone
  parent : Val := .vnone
  page_size : Val := .vnone
  cursor : Val := .vnone
  include_transform : Val := .vnone
  deriving Repr

/-- One conditional insertion "if v: params[k] = v" of the source. -/
def ifTruthy (k : String) (v : Val) : List (String × Val) :=
  if truthy v then [(k, v)] else []

/-- One conditional insertion "if coerced is not None: params[k] = coerced"
of the source. -/
def ifSome {α : Type} (k : String) (f : α → Val) : Option α → List (String × Val)
  | some x => [(k, f x)]
  | none => []

/-- Lines 49-76 of manage_prefabs.py: build the params mapping, starting from
the action and adding each optional field only when it resolves to a defined
value. -/
def buildParams (a : Args) : List (String × Val) :=
  [("action", .vstr a.action)]
    ++ ifTruthy "prefabPath" a.prefab_path
    ++ ifTruthy "mode" a.mode
    ++ ifSome "saveBeforeClose" Val.vbool (coerce_bool a.save_before_close)
    ++ ifTruthy "target" a.target
    ++ ifSome "allowOverwrite" Val.vbool (coerce_bool a.allow_overwrite)
    ++ ifSome "searchInactive" Val.vbool (coerce_bool a.search_inactive)
    ++ ifTruthy "parent" a.parent
    ++ ifSome "pageSize" Val.vint (coerce_int a.page_size none)
    ++ ifSome "cursor" Val.vint (coerce_int a.cursor none)
    ++ ifSome "includeTransform" Val.vbool (coerce_bool a.include_transform)

/-- The fixed default success message of line 82 of manage_prefabs.py. -/
def defaultSuccessMessage : String := "Prefab operation successful."

/-- Lines 79-85 of manage_prefabs.py: map the raw reply to the result
envelope.  A mapping with truthy success is rebuilt as the canonical
success envelope; any other mapping is passed through unchanged; a
non-mapping reply becomes a failure whose message is its str(). -/
def normalizeResponse (response : Val) : Val :=
  if response.isDict && truthy (response.getVal "success") then
    .vdict [("success", .vbool true),
            ("message", response.getD "message" (.vstr defaultSuccessMessage)),
            ("data", response.getVal "data")]
  else if response.isDict then
    response
  else
    .vdict [("success", .vbool false), ("message", .vstr (pyStr response))]

/-- The fixed diagnostic text prepended on the exception path
(line 87 of manage_prefabs.py). -/
def pyErrorHead : String := "Python error managing prefabs: "

/-- Line 87 of manage_prefabs.py: the envelope produced by the except
handler from a raised exception. -/
def pyErrorEnvelope (exc : PyErr) : Val :=
  .vdict [("success", .vbool false), ("message", .vstr (pyErrorHead ++ exc.msg))]

/-- Lines 44-87 of manage_prefabs.py: resolve the instance from the session
context, build the params, dispatch through send_with_unity_instance, and
normalize the outcome; any exception raised inside the try block is converted
by the except handler into pyErrorEnvelope.  The second component counts the
network sends performed. -/
def manage_prefabs (send : SendFn) (ctx : Context) (a : Args) : Val × Nat :=
  let unity_instance := get_unity_instance_from_context ctx
  let params := buildParams a
  match send_with_unity_instance send unity_instance "manage_prefabs" params with
  | (.ok response, n) => (normalizeResponse response, n)
  | (.error exc, n) => (pyErrorEnvelope exc, n)

/-- The session context used by the concrete scenarios: one bound instance. -/
def ctxWithInstance : Context := ⟨some ⟨1⟩⟩

/-- The data of the get_hierarchy scenario reply. -/
def hierarchyData : Val :=
  .vdict [("items", .vlist [.vstr "Root", .vstr "Child"]), ("nextCursor", .vint 50)]

/-- A mock dispatcher whose reply is the get_hierarchy scenario reply:
success true, data present, no message field. -/
def hierarchySend : SendFn :=
  fun _ _ _ => (.ok (.vdict [("success", .vbool true), ("data", hierarchyData)]), 1)

/-- The arguments of the get_hierarchy scenario. -/
def hierarchyArgs : Args :=
  { action := "get_hierarchy", parent := .vstr "Root",
    page_size := .vint 50, cursor := .vint 0 }

/-- A dispatcher that raises. -/
def boomSend : SendFn := fun _ _ _ => (.error ⟨"kaput"⟩, 2)

/-- A dispatcher whose reply is the empty mapping. -/
def emptyReplySend : SendFn := fun _ _ _ => (.ok (.vdict []), 1)

/-- A dispatcher that echoes the params it was given back as the data field
of a successful reply. -/
def recordingSend : SendFn :=
  fun _ _ ps => (.ok (.vdict [("success", .vbool true), ("data", .vdict ps)]), 1)

lemma normalize_success_eq (r : Val) (hd : r.isDict = true)
    (hs : truthy (r.getVal "success") = true) :
    normalizeResponse r =
      .vdict [("success", .vbool true),
              ("message", r.getD "message" (.vstr defaultSuccessMessage)),
              ("data", r.getVal "data")] := by
  simp [normalizeResponse, hd, hs]

lemma normalize_passthrough_eq (r : Val) (hd : r.isDict = true)
    (hs : truthy (r.getVal "success") = false) :
    normalizeResponse r = r := by
  simp [normalizeResponse, hd, hs]

lemma normalize_nonmap_eq (v : Val) (hd : v.isDict = false) :
    normalizeResponse v =
      .vdict [("success", .vbool false), ("message", .vstr (pyStr v))] := by
  simp [normalizeResponse, hd]

lemma normalize_success_canonical (m d : Val) :
    normalizeResponse (.vdict [("success", .vbool true), ("message", m), ("data", d)])
      = .vdict [("success", .vbool true), ("message", m), ("data", d)] := rfl

/-- Claim C3, as frozen, is false on the code: the fixed default success
message is "Prefab operation successful.", not "Operation successful.".  At
the explicit reply with truthy success and no message field the returned
message differs from the claimed one. -/
theorem normalize_default_message_C3_cex :
    (normalizeResponse (.vdict [("success", .vbool true)])).getVal "message"
        ≠ .vstr "Operation successful."
    ∧ (normalizeResponse (.vdict [("success", .vbool true)])).getVal "message"
        = .vstr "Prefab operation successful." := by
  refine ⟨?_, rfl⟩
  intro h
  have h1 : Val.vstr "Prefab operation successful." = Val.vstr "Operation successful." := h
  injection h1 with hs
  exact absurd hs (by decide)

/-- Claim C3 (amended): a mapping reply with truthy success is rebuilt as
success true, message the reply message field or the fixed default
"Prefab operation successful.", data the reply data field; in the
get_hierarchy scenario the dispatched call returns exactly that envelope with
the default message and the reply data. -/
theorem normalize_success_rule_C3 :
    (∀ r : Val, r.isDict = true → truthy (r.getVal "success") = true →
      normalizeResponse r =
        .vdict [("success", .vbool true),
                ("message", r.getD "message" (.vstr defaultSuccessMessage)),
                ("data", r.getVal "data")])
    ∧ (manage_prefabs hierarchySend ctxWithInstance hierarchyArgs).1 =
        .vdict [("success", .vbool true),
                ("message", .vstr "Prefab operation successful."),
                ("data", hierarchyData)] := by
  exact ⟨fun r hd hs => normalize_success_eq r hd hs, rfl⟩

/-- Witness for C3: the general rule applied to a concrete reply carrying its
own message. -/
theorem normalize_success_rule_C3_witness :
    normalizeResponse (.vdict [("success", .vbool true), ("message", .vstr "done")])
      = .vdict [("success", .vbool true), ("message", .vstr "done"), ("data", .vnone)] :=
  normalize_success_rule_C3.1 _ rfl rfl

/-- Claim C4: a mapping reply lacking a success field or whose success field
is falsy is returned unchanged as the failure envelope — being equal to the
reply, it preserves every key and value and adds nothing. -/
theorem normalize_failure_passthrough_C4 :
    ∀ r : Val, r.isDict = true → truthy (r.getVal "success") = false →
      normalizeResponse r = r :=
  fun r hd hs => normalize_passthrough_eq r hd hs

/-- Witness for C4 at a concrete diagnostic mapping with no success field. -/
theorem normalize_failure_passthrough_C4_witness :
    normalizeResponse (.vdict [("errorCode", .vint 7)]) = .vdict [("errorCode", .vint 7)] :=
  normalize_failure_passthrough_C4 _ rfl rfl

/-- Claim C7: normalization is idempotent — a canonical success mapping and
any mapping with falsy or absent success pass through unchanged, and
normalizing twice equals normalizing once for every value. -/
theorem normalize_idempotent_C7 :
    (∀ m d : Val,
      normalizeResponse (.vdict [("success", .vbool true), ("message", m), ("data", d)])
        = .vdict [("success", .vbool true), ("message", m), ("data", d)])
    ∧ (∀ r : Val, r.isDict = true → truthy (r.getVal "success") = false →
        normalizeResponse r = r)
    ∧ (∀ v : Val, normalizeResponse (normalizeResponse v) = normalizeResponse v) := by
  refine ⟨normalize_success_canonical, fun r hd hs => normalize_passthrough_eq r hd hs, ?_⟩
  intro v
  cases hd : v.isDict with
  | false =>
      rw [normalize_nonmap_eq v hd]
      exact normalize_passthrough_eq _ rfl rfl
  | true =>
      cases hs : truthy (v.getVal "success") with
      | false =>
          rw [normalize_passthrough_eq v hd hs]
          exact normalize_passthrough_eq v hd hs
      | true =>
          rw [normalize_success_eq v hd hs]
          exact normalize_success_canonical _ _


/-- Claim C8: a non-mapping reply becomes success false with the str() of
the reply as message. -/
theorem normalize_nonmapping_C8 :
    ∀ v : Val, v.isDict = false →
      normalizeResponse v = .vdict [("success", .vbool false), ("message", .vstr (pyStr v))] :=
  fun v hd => normalize_nonmap_eq v hd

/-- Witness for C8 at a plain string reply. -/
theorem normalize_nonmapping_C8_witness :
    normalizeResponse (.vstr "plain reply")
      = .vdict [("success", .vbool false), ("message", .vstr "plain reply")] :=
  normalize_nonmapping_C8 (.vstr "plain reply") rfl

/-- Claim C10: on the truthy-success path the returned envelope has exactly
the keys success, message, data in that order — data is always present, its
value is the reply data field and is None when the reply lacks one, and every
other reply key is dropped. -/
theorem normalize_success_shape_C10 :
    ∀ r : Val, r.isDict = true → truthy (r.getVal "success") = true →
      (normalizeResponse r).keys = ["success", "message", "data"]
      ∧ (normalizeResponse r).getVal "data" = r.getVal "data"
      ∧ (r.entries.lookup "data" = none → (normalizeResponse r).getVal "data" = .vnone) := by
  intro r hd hs
  rw [normalize_success_eq r hd hs]
  refine ⟨rfl, rfl, ?_⟩
  intro hnone
  show Val.getVal r "data" = Val.vnone
  simp [Val.getVal, hnone]

/-- Witness for C10 at a reply with an extra key and no data. -/
theorem normalize_success_shape_C10_witness :
    (normalizeResponse (.vdict [("success", .vint 1), ("extra", .vstr "x")])).keys
      = ["success", "message", "data"] :=
  (normalize_success_shape_C10 (.vdict [("success", .vint 1), ("extra", .vstr "x")]) rfl rfl).1

lemma mem_ifTruthy {k q : String} {v w : Val} :
    (q, w) ∈ ifTruthy k v ↔ truthy v = true ∧ q = k ∧ w = v := by
  unfold ifTruthy
  split <;> simp_all

lemma mem_ifSome {α : Type} {k q : String} {f : α → Val} {o : Option α} {w : Val} :
    (q, w) ∈ ifSome k f o ↔ ∃ x, o = some x ∧ q = k ∧ w = f x := by
  cases o <;> simp [ifSome]

/-- Claim C6: the dispatched params mapping holds an optional key exactly when
the corresponding argument resolved to a defined value — empty strings and
failed coercions (and absent arguments, which coerce to nothing) leave the key
out — and no key is ever bound to None.  Parameter normalization is a total
function, so it never raises. -/
theorem buildParams_optional_fields_C6 (a : Args) :
    (∀ p : String × Val, p ∈ buildParams a → p.2 ≠ Val.vnone)
    ∧ (∀ v, ("prefabPath", v) ∈ buildParams a ↔ truthy a.prefab_path = true ∧ v = a.prefab_path)
    ∧ (∀ v, ("mode", v) ∈ buildParams a ↔ truthy a.mode = true ∧ v = a.mode)
    ∧ (∀ v, ("saveBeforeClose", v) ∈ buildParams a
        ↔ ∃ b, coerce_bool a.save_before_close = some b ∧ v = Val.vbool b)
    ∧ (∀ v, ("target", v) ∈ buildParams a ↔ truthy a.target = true ∧ v = a.target)
    ∧ (∀ v, ("allowOverwrite", v) ∈ buildParams a
        ↔ ∃ b, coerce_bool a.allow_overwrite = some b ∧ v = Val.vbool b)
    ∧ (∀ v, ("searchInactive", v) ∈ buildParams a
        ↔ ∃ b, coerce_bool a.search_inactive = some b ∧ v = Val.vbool b)
    ∧ (∀ v, ("parent", v) ∈ buildParams a ↔ truthy a.parent = true ∧ v = a.parent)
    ∧ (∀ v, ("pageSize", v) ∈ buildParams a
        ↔ ∃ n, coerce_int a.page_size none = some n ∧ v = Val.vint n)
    ∧ (∀ v, ("cursor", v) ∈ buildParams a
        ↔ ∃ n, coerce_int a.cursor none = some n ∧ v = Val.vint n)
    ∧ (∀ v, ("includeTransform", v) ∈ buildParams a
        ↔ ∃ b, coerce_bool a.include_transform = some b ∧ v = Val.vbool b) := by
  constructor
  · rintro ⟨k, v⟩ hp hv
    subst hv
    simp only [buildParams, List.mem_append, List.mem_singleton, Prod.mk.injEq,
      mem_ifTruthy, mem_ifSome] at hp
    rcases hp with ((((((((((h | h) | h) | h) | h) | h) | h) | h) | h) | h) | h) <;>
      first
        | (obtain ⟨ht, hk, he⟩ := h
           rw [← he] at ht
           simp [truthy] at ht)
        | (obtain ⟨x, hx, hk, he⟩ := h
           simp at he)
        | (obtain ⟨hk, he⟩ := h
           simp at he)
  · refine ⟨?_, ?_, ?_, ?_, ?_, ?_, ?_, ?_, ?_, ?_⟩ <;>
      intro v <;>
      simp [buildParams, mem_ifTruthy, mem_ifSome, and_comm]

/-- Witness for C6: an empty prefab path string leaves the prefabPath key
out of the params. -/
theorem buildParams_optional_fields_C6_witness :
    ("prefabPath", Val.vstr "")
      ∉ buildParams { action := "get_hierarchy", prefab_path := .vstr "",
                      page_size := .vstr "abc", include_transform := .vstr "maybe" } :=
  fun h =>
    absurd
      (((buildParams_optional_fields_C6
          { action := "get_hierarchy", prefab_path := .vstr "",
            page_size := .vstr "abc", include_transform := .vstr "maybe" }).2.1
        (Val.vstr "")).mp h).1
      (by decide)

/-- Claim C9: the supplied action string is always placed first in the params
under the key action, exactly as given and unconditionally — a zero-length
action included — and the mapping handed to the dispatcher is exactly the
built params. -/
theorem buildParams_action_C9 :
    (∀ a : Args, (buildParams a).head? = some ("action", .vstr a.action))
    ∧ (∀ a : Args, (buildParams a).lookup "action" = some (.vstr a.action))
    ∧ (buildParams { action := "" }).lookup "action" = some (.vstr "")
    ∧ (∀ a : Args,
        (manage_prefabs recordingSend ctxWithInstance a).1.getVal "data"
          = .vdict (buildParams a)) := by
  refine ⟨fun a => ?_, fun a => rfl, rfl, fun a => rfl⟩
  simp [buildParams]

/-- Witness for C7: the falsy-success branch at a concrete canonical failure
mapping. -/
theorem normalize_idempotent_C7_witness :
    normalizeResponse (.vdict [("success", .vbool false), ("message", .vstr "nope")])
      = .vdict [("success", .vbool false), ("message", .vstr "nope")] :=
  normalize_idempotent_C7.2.1 (.vdict [("success", .vbool false), ("message", .vstr "nope")])
    rfl rfl

lemma manage_prefabs_error_eq (send : SendFn) (ctx : Context) (a : Args) (e : PyErr) (n : Nat)
    (h : send_with_unity_instance send (get_unity_instance_from_context ctx)
          "manage_prefabs" (buildParams a) = (.error e, n)) :
    manage_prefabs send ctx a = (pyErrorEnvelope e, n) := by
  simp [manage_prefabs, h]

lemma manage_prefabs_ok_eq (send : SendFn) (ctx : Context) (a : Args) (resp : Val) (n : Nat)
    (h : send_with_unity_instance send (get_unity_instance_from_context ctx)
          "manage_prefabs" (buildParams a) = (.ok resp, n)) :
    manage_prefabs send ctx a = (normalizeResponse resp, n) := by
  simp [manage_prefabs, h]

/-- Claim C1: no internal error ever propagates — every invocation ends in a
result mapping: a delivered reply is normalized, and a raised error is
converted at the boundary into success false with the fixed diagnostic text
followed by the error description. -/
theorem manage_prefabs_boundary_C1 :
    (∀ send ctx a,
      (∃ resp n,
        send_with_unity_instance send (get_unity_instance_from_context ctx)
            "manage_prefabs" (buildParams a) = (.ok resp, n)
          ∧ manage_prefabs send ctx a = (normalizeResponse resp, n))
      ∨ (∃ e n,
        send_with_unity_instance send (get_unity_instance_from_context ctx)
            "manage_prefabs" (buildParams a) = (.error e, n)
          ∧ manage_prefabs send ctx a = (pyErrorEnvelope e, n)))
    ∧ (∀ send ctx a e n,
        send_with_unity_instance send (get_unity_instance_from_context ctx)
            "manage_prefabs" (buildParams a) = (.error e, n) →
        (manage_prefabs send ctx a).1
          = .vdict [("success", .vbool false),
                    ("message", .vstr (pyErrorHead ++ e.msg))]) := by
  constructor
  · intro send ctx a
    rcases h : send_with_unity_instance send (get_unity_instance_from_context ctx)
        "manage_prefabs" (buildParams a) with ⟨res, n⟩
    cases res with
    | ok resp => exact Or.inl ⟨resp, n, rfl, manage_prefabs_ok_eq send ctx a resp n h⟩
    | error e => exact Or.inr ⟨e, n, rfl, manage_prefabs_error_eq send ctx a e n h⟩
  · intro send ctx a e n h
    rw [manage_prefabs_error_eq send ctx a e n h]
    rfl

/-- Witness for C1: a dispatcher that raises is converted into the prefixed
failure envelope. -/
theorem manage_prefabs_boundary_C1_witness :
    (manage_prefabs boomSend ctxWithInstance { action := "open_stage" }).1
      = .vdict [("success", .vbool false),
                ("message", .vstr "Python error managing prefabs: kaput")] :=
  manage_prefabs_boundary_C1.2 boomSend ctxWithInstance { action := "open_stage" }
    ⟨"kaput"⟩ 2 rfl

/-- Claim C2: with no instance bound to the session, every invocation — any
action — returns success false with a message containing the phrase
"no active instance" case-insensitively, and performs zero network sends. -/
theorem manage_prefabs_no_instance_C2 :
    ∀ (send : SendFn) (a : Args),
      (manage_prefabs send ⟨none⟩ a).2 = 0
      ∧ (manage_prefabs send ⟨none⟩ a).1.getVal "success" = .vbool false
      ∧ ∃ s, (manage_prefabs send ⟨none⟩ a).1.getVal "message" = .vstr s
          ∧ containsCI s "no active instance" = true := by
  intro send a
  exact ⟨rfl, rfl, ⟨pyErrorHead ++ noActiveInstanceMessage, rfl, by decide⟩⟩

/-- Claim C5, as frozen, is false on the code: a mapping reply with falsy or
absent success is passed through unchanged, so at the concrete reply that is
the empty mapping the returned result is a failure (its success field is
absent, hence falsy) that carries no message at all. -/
theorem manage_prefabs_invariant_C5_cex :
    (manage_prefabs emptyReplySend ctxWithInstance { action := "close_stage" }).1 = .vdict []
    ∧ (Val.vdict []).getVal "message" = .vnone
    ∧ truthy ((Val.vdict []).getVal "success") = false :=
  ⟨rfl, rfl, rfl⟩

/-- Claim C5 (amended): every result whose envelope manage_prefabs builds
itself satisfies the invariant — on the exception path success is false and
the prefixed message is non-empty; on the truthy-success path with no reply
message field success is true and the message is the non-empty fixed default;
on the non-mapping path success is false and the message is str(reply),
non-empty whenever that string is.  Failure mappings are passed through
unchanged, so for them the invariant holds only if the reply already carries
it. -/
theorem manage_prefabs_invariant_C5 :
    (∀ send ctx a e n,
        send_with_unity_instance send (get_unity_instance_from_context ctx)
            "manage_prefabs" (buildParams a) = (.error e, n) →
        (manage_prefabs send ctx a).1.getVal "success" = .vbool false
          ∧ ∃ s, (manage_prefabs send ctx a).1.getVal "message" = .vstr s ∧ s ≠ "")
    ∧ (∀ r : Val, r.isDict = true → truthy (r.getVal "success") = true →
        r.entries.lookup "message" = none →
        (normalizeResponse r).getVal "success" = .vbool true
          ∧ (normalizeResponse r).getVal "message" = .vstr defaultSuccessMessage
          ∧ defaultSuccessMessage ≠ "")
    ∧ (∀ v : Val, v.isDict = false → pyStr v ≠ "" →
        (normalizeResponse v).getVal "success" = .vbool false
          ∧ ∃ s, (normalizeResponse v).getVal "message" = .vstr s ∧ s ≠ "") := by
  refine ⟨?_, ?_, ?_⟩
  · intro send ctx a e n h
    rw [manage_prefabs_error_eq send ctx a e n h]
    refine ⟨rfl, pyErrorHead ++ e.msg, rfl, ?_⟩
    intro hempty
    have h2 : (pyErrorHead ++ e.msg).length = 0 := by rw [hempty]; rfl
    rw [String.length_append] at h2
    have h3 : pyErrorHead.length = 31 := rfl
    omega
  · intro r hd hs hm
    rw [normalize_success_eq r hd hs]
    refine ⟨rfl, ?_, by decide⟩
    show Val.getD r "message" (.vstr defaultSuccessMessage) = .vstr defaultSuccessMessage
    simp [Val.getD, hm]
  · intro v hd hne
    rw [normalize_nonmap_eq v hd]
    exact ⟨rfl, pyStr v, rfl, hne⟩

/-- Witness for C5: the truthy-success branch of the amended invariant at a
concrete reply without a message field. -/
theorem manage_prefabs_invariant_C5_witness :
    (normalizeResponse (.vdict [("success", .vbool true), ("data", .vint 3)])).getVal "success"
      = .vbool true :=
  (manage_prefabs_invariant_C5.2.1 (.vdict [("success", .vbool true), ("data", .vint 3)])
    rfl rfl rfl).1

end ManagePrefabs
